import Mathlib

/-
Verification of the quiz session engine of quiz_app.py.

The embedding models:
  * timed_input results as `Option String` (`none` = the 10-second deadline
    expired and timed_input returned None; `some s` = the line `s` was
    received before the deadline, returned verbatim);
  * a session run as a function of the drawn question list and the script of
    prompt results, one per timed_input call;
  * the results CSV and the per-session JSON detail file as explicit values
    threaded through `save_result` and `take_quiz`;
  * Python exceptions (UnboundLocalError on the local `choice`,
    ZeroDivisionError in the percentage computation) as an error type.

random.sample is nondeterministic, so the drawn list `quiz_qs` is a
parameter constrained by `IsSample`: a permutation of a sublist of the pool
of the requested length, exactly the possible outputs of sampling without
replacement.
-/

namespace QuizApp

/-- A question record, as stored in questions.json and consumed by
take_quiz: text, options, 0-based answer_index, tags. -/
structure Question where
  question : String
  options : List String
  answer_index : Nat
  tags : List String
deriving Repr, DecidableEq

/-- One entry of the `answers` list built by take_quiz (lines 76-81 and
103-108): question text, 1-based selection (`none` models Python None on
timeout), 1-based correct index, correctness flag. -/
structure AnswerRecord where
  question : String
  selected : Option Int
  correct : Int
  is_correct : Bool
deriving Repr, DecidableEq

/-- Python exceptions the engine can raise, plus script exhaustion (the
model ran out of scripted prompt results; real runs block for input
instead, so no claim is settled on an exhausted script). -/
inductive PyErr
  | scriptExhausted
  | nameError
  | zeroDivisionError
deriving Repr, DecidableEq

/-- Python int(s) on the strings this program can receive: optional
surrounding whitespace, optional sign, a nonempty run of decimal digits;
anything else raises ValueError (`none`). -/
def pyInt (s : String) : Option Int :=
  let cs0 := s.toList.dropWhile Char.isWhitespace
  let cs := (cs0.reverse.dropWhile Char.isWhitespace).reverse
  let sd :=
    match cs with
    | '-' :: rest => (true, rest)
    | '+' :: rest => (false, rest)
    | _ => (false, cs)
  if sd.2 = [] then none
  else if sd.2.all Char.isDigit then
    let n : Nat := sd.2.foldl (fun a c => 10 * a + (c.toNat - 48)) 0
    some (if sd.1 then - (n : Int) else (n : Int))
  else none

/-- The retry loop of take_quiz (lines 69-91) for one question.  `choice`
is the current value of the Python local variable `choice` (`none` =
not yet assigned).  Returns, at loop exit, the last `user_input`, the
final `choice`, the records appended inside the loop (the timeout branch
appends one at lines 76-81), and the unconsumed script. -/
def askLoop (q : Question) :
    Option Int → List (Option String) →
    Except PyErr (Option String × Option Int × List AnswerRecord × List (Option String))
  | _, [] => .error .scriptExhausted
  | choice, none :: rest =>
      .ok (none, choice,
        [{ question := q.question, selected := none,
           correct := (q.answer_index : Int) + 1, is_correct := false }], rest)
  | choice, some s :: rest =>
      match pyInt s with
      | none => askLoop q choice rest
      | some c =>
        if 1 ≤ c ∧ c ≤ (q.options.length : Int) then
          .ok (some s, some c, [], rest)
        else askLoop q (some c) rest

/-- One iteration of the per-question for loop (lines 63-108): run the
retry loop, then execute the post-loop code at lines 93-108, which reads
`choice` unconditionally (line 94) — UnboundLocalError if it was never
assigned — and appends a record.  Returns the score increment, the final
`choice`, all records appended for this iteration, and the rest of the
script. -/
def process_question (q : Question) (choice : Option Int)
    (script : List (Option String)) :
    Except PyErr (Nat × Option Int × List AnswerRecord × List (Option String)) :=
  match askLoop q choice script with
  | .error e => .error e
  | .ok (user_input, choice2, loopRecs, rest) =>
    match choice2 with
    | none => .error .nameError
    | some c =>
      let correct_index : Int := (q.answer_index : Int) + 1
      let is_correct : Bool := decide (c = correct_index)
      let inc : Nat := if user_input.isSome ∧ is_correct then 1 else 0
      .ok (inc, some c,
        loopRecs ++
          [{ question := q.question,
             selected := if user_input.isSome then some c else none,
             correct := correct_index, is_correct := is_correct }],
        rest)

/-- The full question loop of take_quiz (lines 60-108): threads score and
the `choice` local across questions, concatenating the appended records. -/
def run_questions : List Question → Nat → Option Int → List (Option String) →
    Except PyErr (Nat × List AnswerRecord)
  | [], score, _, _ => .ok (score, [])
  | q :: qs, score, choice, script =>
    match process_question q choice script with
    | .error e => .error e
    | .ok (inc, choice2, recs, rest) =>
      match run_questions qs (score + inc) choice2 rest with
      | .error e => .error e
      | .ok (final, more) => .ok (final, recs ++ more)

/-- One row of quiz_results.csv: the header row, or a data row
`timestamp, score, total, percentage`. -/
inductive CsvRow
  | header
  | data (timestamp : String) (score total : Nat) (percentage : ℚ)
deriving Repr, DecidableEq

/-- The per-session JSON detail file written by save_result
(lines 126-131). -/
structure DetailRecord where
  timestamp : String
  score : Nat
  total : Nat
  answers : List AnswerRecord
deriving Repr, DecidableEq

/-- The files save_result touches: quiz_results.csv (`none` = the file
does not exist) and the detail files written so far. -/
structure FS where
  resultsCsv : Option (List CsvRow)
  details : List DetailRecord
deriving Repr, DecidableEq

/-- Rounding to 2 decimal places, modelling the `:.2f` formatting of the
percentage. -/
def round2 (x : ℚ) : ℚ := (round (x * 100) : ℤ) / 100

/-- save_result (lines 116-133).  Opening in append mode creates the CSV
if missing; the header is written when the file did not exist; then the
data row, whose percentage `score/total*100` raises ZeroDivisionError when
total = 0 — after the header write, before the data row and the detail
file.  On success one data row and one detail record are appended. -/
def save_result (fs : FS) (now : String) (score total : Nat)
    (answers : List AnswerRecord) : FS × Option PyErr :=
  let rows1 := fs.resultsCsv.getD [] ++
    (if fs.resultsCsv.isSome then [] else [CsvRow.header])
  if total = 0 then
    ({ fs with resultsCsv := some rows1 }, some .zeroDivisionError)
  else
    ({ resultsCsv := some (rows1 ++
         [CsvRow.data now score total (round2 ((score : ℚ) / (total : ℚ) * 100))]),
       details := fs.details ++ [⟨now, score, total, answers⟩] }, none)

/-- Clamping of num_questions (lines 56-57): `None` and any request above
the pool size become the pool size; anything else — including 0 — is kept. -/
def effective_count (pool_len : Nat) (num : Option Nat) : Nat :=
  match num with
  | none => pool_len
  | some k => if k > pool_len then pool_len else k

/-- The possible outputs of `random.sample pool n`: a list of length n
that permutes a sublist of the pool (sampling without replacement). -/
def IsSample (pool : List Question) (n : Nat) (sel : List Question) : Prop :=
  sel.length = n ∧ ∃ l, l.Sublist pool ∧ sel.Perm l

/-- Observable outcome of a take_quiz call: the early return on an empty
pool (the code prints a message and returns None — the EmptyPoolError of
the specification), an uncaught exception, or the returned
(score, num_questions) pair. -/
inductive QuizOutcome
  | noQuestions
  | raised (e : PyErr)
  | finished (score total : Nat)
deriving Repr, DecidableEq

/-- take_quiz (lines 51-112): empty-pool early return before any
sampling or prompting; otherwise clamp the count, run the questions over
the drawn list `quiz_qs`, and hand the result to save_result.  Returns
the final file state and the outcome. -/
def take_quiz (fs : FS) (now : String) (pool : List Question)
    (num : Option Nat) (quiz_qs : List Question)
    (script : List (Option String)) : FS × QuizOutcome :=
  if pool.isEmpty then (fs, .noQuestions)
  else
    let n := effective_count pool.length num
    match run_questions quiz_qs 0 none script with
    | .error e => (fs, .raised e)
    | .ok (score, answers) =>
      match save_result fs now score n answers with
      | (fs2, some e) => (fs2, .raised e)
      | (fs2, none) => (fs2, .finished score n)

/-- Concrete questions used in scenario theorems. -/
def sampleQ : Question := ⟨"Q1", ["A", "B", "C", "D"], 2, []⟩

def qA : Question := ⟨"QA", ["A", "B", "C", "D"], 0, []⟩

def qB : Question := ⟨"QB", ["A", "B", "C", "D"], 0, []⟩

def qC : Question := ⟨"QC", ["A", "B", "C", "D"], 1, []⟩

/-- The branch condition of lines 84-91 for a present input: it fails to
parse as an integer, or parses to one outside [1, len(options)]. -/
def invalid_present (q : Question) (s : String) : Bool :=
  match pyInt s with
  | none => true
  | some c => decide (¬ (1 ≤ c ∧ c ≤ (q.options.length : Int)))

/-- The value of the Python local `choice` after lines 84-91 reject the
input `s`: unchanged on ValueError, set on an out-of-range parse. -/
def retry_choice (s : String) (choice : Option Int) : Option Int :=
  match pyInt s with
  | none => choice
  | some c => some c

/-- Helper: the successful branch of save_result, written out. -/
theorem save_result_eq (fs : FS) (now : String) (score total : Nat)
    (answers : List AnswerRecord) (h : total ≠ 0) :
    save_result fs now score total answers =
      ({ resultsCsv := some ((fs.resultsCsv.getD [] ++
           (if fs.resultsCsv.isSome then [] else [CsvRow.header])) ++
           [CsvRow.data now score total (round2 ((score : ℚ) / (total : ℚ) * 100))]),
         details := fs.details ++ [⟨now, score, total, answers⟩] }, none) := by
  simp [save_result, h]

/-- Helper: take_quiz on a non-empty pool whose question loop succeeds is
save_result applied to the loop result and the clamped count. -/
theorem take_quiz_eq_of_run (fs : FS) (now : String) (pool : List Question)
    (num : Option Nat) (quiz_qs : List Question) (script : List (Option String))
    (score : Nat) (answers : List AnswerRecord)
    (hpool : pool.isEmpty = false)
    (hrun : run_questions quiz_qs 0 none script = Except.ok (score, answers)) :
    take_quiz fs now pool num quiz_qs script =
      (match save_result fs now score (effective_count pool.length num) answers with
       | (fs2, some e) => (fs2, QuizOutcome.raised e)
       | (fs2, none) =>
         (fs2, QuizOutcome.finished score (effective_count pool.length num))) := by
  simp [take_quiz, hpool, hrun]

/-- C1: on the run with pool [qA, qC], requested count 2, draw [qA, qC],
and prompt results ["1", timeout], take_quiz produces 3 AnswerRecords for
an effective count of 2, with question "QC" recorded twice: the timeout
branch appends a record and then the post-loop code appends a second one
for the same question, refuting the exactly-effective_count and
no-duplicate parts of the claim. -/
theorem C1_timeout_breaks_record_count :
    ∃ recs, run_questions [qA, qC] 0 none [some "1", none] = Except.ok (1, recs) ∧
      recs.length = 3 ∧ 3 ≠ effective_count 2 (some 2) ∧
      recs.countP (fun r => r.question == "QC") = 2 :=
  ⟨_, rfl, rfl, by decide, rfl⟩

/-- C2: on the run with pool [qA, qB] (both with answer_index 0), draw
[qA, qB], and prompt results ["1", timeout], the final score is 1 but 2 of
the produced AnswerRecords have is_correct = true: the duplicate record
appended after the timeout reuses the stale `choice` 1, which equals qB's
correct index, so score ≠ count of is_correct records. -/
theorem C2_score_differs_from_correct_count :
    ∃ score recs,
      run_questions [qA, qB] 0 none [some "1", none] = Except.ok (score, recs) ∧
      score = 1 ∧ recs.countP (fun r => r.is_correct) = 2 ∧ score ≠ 2 :=
  ⟨_, _, rfl, rfl, rfl, by decide⟩

/-- C3: a timeout on the very first prompt of a session does not yield a
single AnswerRecord and an advance: after the timeout branch appends its
record and breaks, line 94 reads the local `choice`, which has never been
assigned, and the session raises UnboundLocalError. -/
theorem C3_first_timeout_raises :
    run_questions [sampleQ] 0 none [none] = Except.error PyErr.nameError := rfl

/-- C4: take_quiz does not complete every session: with a non-empty pool
and a timeout on the very first question, the call raises
UnboundLocalError mid-session instead of recording an automatic loss. -/
theorem C4_timeout_crashes_session :
    take_quiz ⟨none, []⟩ "t" [sampleQ] (some 1) [sampleQ] [none] =
      (⟨none, []⟩, QuizOutcome.raised PyErr.nameError) := rfl

/-- C5: on an empty pool, take_quiz returns the no-questions outcome
immediately: no question is presented, and the file state — the
cumulative log and the detail records — is returned unchanged. -/
theorem C5_empty_pool_writes_nothing (fs : FS) (now : String) (num : Option Nat)
    (quiz_qs : List Question) (script : List (Option String)) :
    take_quiz fs now [] num quiz_qs script = (fs, QuizOutcome.noQuestions) := rfl

/-- C6: when a question is answered with a valid in-range selection c, the
step appends exactly one AnswerRecord with selected = c, correct =
answer_index + 1 and is_correct deciding c = answer_index + 1, and the
score increment is 1 exactly when that equality holds; and on the
scenario pool of one question with options A-D and answer_index 2,
requested count 1 and input "3", the outcome is score 1 of total 1 with
the single record (selected 3, correct 3, is_correct true). -/
theorem C6_valid_selection_scores :
    (∀ (q : Question) (ch : Option Int) (s : String) (rest : List (Option String))
      (c : Int), pyInt s = some c → 1 ≤ c → c ≤ (q.options.length : Int) →
      process_question q ch (some s :: rest) =
        Except.ok ((if c = (q.answer_index : Int) + 1 then 1 else 0), some c,
          [⟨q.question, some c, (q.answer_index : Int) + 1,
            decide (c = (q.answer_index : Int) + 1)⟩], rest)) ∧
    take_quiz ⟨none, []⟩ "t" [sampleQ] (some 1) [sampleQ] [some "3"] =
      (⟨some [CsvRow.header, CsvRow.data "t" 1 1 100],
        [⟨"t", 1, 1, [⟨"Q1", some 3, 3, true⟩]⟩]⟩, QuizOutcome.finished 1 1) := by
  constructor
  · intro q ch s rest c hp h1 h2
    simp only [process_question, askLoop, hp]
    rw [if_pos ⟨h1, h2⟩]
    by_cases hc : c = (q.answer_index : Int) + 1
    · simp [hc]
    · simp [hc]
  · rw [take_quiz_eq_of_run ⟨none, []⟩ "t" [sampleQ] (some 1) [sampleQ]
        [some "3"] 1 [⟨"Q1", some 3, 3, true⟩] rfl rfl]
    have he : effective_count [sampleQ].length (some 1) = 1 := rfl
    rw [he, save_result_eq ⟨none, []⟩ "t" 1 1 [⟨"Q1", some 3, 3, true⟩]
        (by decide)]
    norm_num [round2]

/-- Witness for C6 at the scenario question and input "3". -/
theorem C6_valid_selection_scores_witness :
    process_question sampleQ none [some "3"] =
      Except.ok (((if (3 : Int) = (sampleQ.answer_index : Int) + 1 then 1 else 0) : Nat),
        some 3, [⟨sampleQ.question, some 3, (sampleQ.answer_index : Int) + 1,
          decide ((3 : Int) = (sampleQ.answer_index : Int) + 1)⟩], []) :=
  C6_valid_selection_scores.1 sampleQ none "3" [] 3 (by decide) (by decide) (by decide)

/-- C7: a present but invalid prompt result (no integer parse, or an
integer outside [1, len(options)]) leaves the session state untouched:
processing the question with that input at the head of the script equals
processing the same question on the remaining script, so no AnswerRecord
is appended and no score accrues for the rejected input; only the Python
local `choice` is updated when the input parsed out of range. -/
theorem C7_invalid_input_retries (q : Question) (ch : Option Int) (s : String)
    (rest : List (Option String)) (h : invalid_present q s = true) :
    process_question q ch (some s :: rest) =
      process_question q (retry_choice s ch) rest := by
  have hask : askLoop q ch (some s :: rest) = askLoop q (retry_choice s ch) rest := by
    unfold invalid_present at h
    cases hp : pyInt s with
    | none => simp [askLoop, retry_choice, hp]
    | some c =>
      rw [hp] at h
      simp only [decide_eq_true_eq] at h
      simp [askLoop, retry_choice, hp, h]
  unfold process_question
  rw [hask]

/-- Witness for C7 at the out-of-range input "9" on a 4-option question. -/
theorem C7_invalid_input_retries_witness :
    process_question sampleQ none [some "9", some "3"] =
      process_question sampleQ (retry_choice "9" none) [some "3"] :=
  C7_invalid_input_retries sampleQ none "9" [some "3"] (by decide)

/-- C8: for total > 0, save_result appends to the cumulative log exactly
one data row carrying timestamp, score, total and score/total*100 rounded
to 2 decimals, preceded by the header row exactly when the log file did
not exist, raises nothing, and preserves every prior row in place. -/
theorem C8_save_result_appends_one_row (fs : FS) (now : String)
    (score total : Nat) (answers : List AnswerRecord) (h : 0 < total) :
    save_result fs now score total answers =
      ({ resultsCsv := some ((fs.resultsCsv.getD [] ++
           (if fs.resultsCsv.isSome then [] else [CsvRow.header])) ++
           [CsvRow.data now score total (round2 ((score : ℚ) / (total : ℚ) * 100))]),
         details := fs.details ++ [⟨now, score, total, answers⟩] }, none) ∧
    (((save_result fs now score total answers).1.resultsCsv.getD []).take
        (fs.resultsCsv.getD []).length) = fs.resultsCsv.getD [] := by
  have hne : total ≠ 0 := Nat.pos_iff_ne_zero.mp h
  constructor
  · simp [save_result, hne]
  · simp [save_result, hne, List.append_assoc, List.take_left]

/-- Witness for C8: appending to a not-yet-existing log. -/
theorem C8_save_result_appends_one_row_witness :
    save_result ⟨none, []⟩ "t" 1 2 [] =
      ({ resultsCsv := some [CsvRow.header,
            CsvRow.data "t" 1 2 (round2 ((1 : ℚ) / (2 : ℚ) * 100))],
         details := [⟨"t", 1, 2, []⟩] }, none) := by
  have h := C8_save_result_appends_one_row ⟨none, []⟩ "t" 1 2 [] (by decide)
  simpa using h.1

/-- C10: with a non-empty pool and requested count 0, the clamp keeps the
effective count at 0 (it only lowers requests above the pool size), the
draw is empty so no question is presented, and save_result then raises
ZeroDivisionError in score/total*100: the division on total is unguarded.
The log file is still created, with just the header when it was missing,
before the raise. -/
theorem C10_zero_count_divides_by_zero (fs : FS) (now : String)
    (pool : List Question) (quiz_qs : List Question)
    (script : List (Option String)) (hpool : pool ≠ [])
    (hsamp : IsSample pool (effective_count pool.length (some 0)) quiz_qs) :
    take_quiz fs now pool (some 0) quiz_qs script =
      ({ fs with resultsCsv := some (fs.resultsCsv.getD [] ++
           (if fs.resultsCsv.isSome then [] else [CsvRow.header])) },
       QuizOutcome.raised PyErr.zeroDivisionError) := by
  have hn : effective_count pool.length (some 0) = 0 := by
    simp [effective_count]
  have hq : quiz_qs = [] := by
    have h0 := hsamp.1
    rw [hn] at h0
    exact List.length_eq_zero.mp h0
  subst hq
  have hp : pool.isEmpty = false := by
    cases pool with
    | nil => exact absurd rfl hpool
    | cons a l => rfl
  simp [take_quiz, hp, run_questions, effective_count, save_result]

/-- Witness for C10 at the one-question pool with the empty draw. -/
theorem C10_zero_count_divides_by_zero_witness :
    take_quiz ⟨none, []⟩ "t" [sampleQ] (some 0) [] [] =
      (⟨some [CsvRow.header], []⟩, QuizOutcome.raised PyErr.zeroDivisionError) := by
  have h := C10_zero_count_divides_by_zero ⟨none, []⟩ "t" [sampleQ] [] []
    (by simp) ⟨rfl, [], List.nil_sublist _, List.Perm.refl []⟩
  simpa using h

end QuizApp
